import Mathlib

/-!
# Verification of `src/extension/bookmark.js`

A shallow embedding of the bookmark-forwarding browser extension.

The JavaScript source is a single event-driven module.  Its effectful
operations (console logging, `fetch`, `browser.bookmarks.get/remove`,
`alert`) are modelled by explicit effect traces: every modelled operation
returns the ordered list of `Effect`s it performs together with its result.
Platform behaviour (the bookmark store, the network, removal outcomes) is
supplied as an explicit environment, so each theorem quantifies over all
platform behaviours.

JavaScript exceptions are modelled with `Except String`: an `Except.error`
escaping an operation corresponds to an uncaught exception propagating out
of that operation.
-/

namespace BookmarkExt

/-- `UNSUPPORTED_SCHEMES` from the source: the four scheme prefixes that are
never forwarded. -/
def UNSUPPORTED_SCHEMES : List String := ["about:", "data:", "chrome:", "file:"]

/-- `DEFAULT_URLS` from the source: vendor default bookmarks, matched exactly. -/
def DEFAULT_URLS : List String :=
  [ "https://support.mozilla.org/products/firefox"
  , "https://support.mozilla.org/kb/customize-firefox-controls-buttons-and-toolbars?utm_source=firefox-browser&utm_medium=default-bookmarks&utm_campaign=customize"
  , "https://www.mozilla.org/contribute/"
  , "https://www.mozilla.org/about/"
  , "https://www.mozilla.org/firefox/?utm_medium=firefox-desktop&utm_source=bookmarks-toolbar&utm_campaign=new-users&utm_content=-global" ]

/-- Model of JavaScript `url.startsWith(scheme)`: `scheme` is a prefix of
`url`, compared character by character. -/
def jsStartsWith (url scheme : String) : Bool :=
  scheme.data.isPrefixOf url.data

/-- `isUnsupportedUrl(url)`: `UNSUPPORTED_SCHEMES.some(scheme => url.startsWith(scheme))`. -/
def isUnsupportedUrl (url : String) : Bool :=
  UNSUPPORTED_SCHEMES.any fun scheme => jsStartsWith url scheme

/-- `isDefaultUrl(url)`: `DEFAULT_URLS.includes(url)`. -/
def isDefaultUrl (url : String) : Bool :=
  DEFAULT_URLS.contains url

/-! ## ISO-8601 timestamp rendering

`new Date(ms).toISOString()` is a platform builtin.  It is modelled here by
the standard proleptic-Gregorian conversion from a non-negative millisecond
Unix timestamp to a `YYYY-MM-DDTHH:MM:SS.sssZ` string. -/

/-- Zero-pad a number to two digits. -/
def pad2 (n : Nat) : String :=
  if n < 10 then "0" ++ toString n else toString n

/-- Zero-pad a number to three digits. -/
def pad3 (n : Nat) : String :=
  if n < 10 then "00" ++ toString n
  else if n < 100 then "0" ++ toString n
  else toString n

/-- Civil date (year, month, day) from a count of days since 1970-01-01,
for dates on or after the epoch. -/
def civilFromDays (days : Nat) : Nat × Nat × Nat :=
  let z := days + 719468
  let era := z / 146097
  let doe := z % 146097
  let yoe := (doe - doe / 1460 + doe / 36524 - doe / 146096) / 365
  let doy := doe - (365 * yoe + yoe / 4 - yoe / 100)
  let mp := (5 * doy + 2) / 153
  let d := doy - (153 * mp + 2) / 5 + 1
  let m := if mp < 10 then mp + 3 else mp - 9
  let y := yoe + era * 400 + (if m ≤ 2 then 1 else 0)
  (y, m, d)

/-- Model of `new Date(ms).toISOString()` for non-negative millisecond
timestamps. -/
def toISOString (ms : Nat) : String :=
  let msPart := ms % 1000
  let totalSec := ms / 1000
  let s := totalSec % 60
  let mi := (totalSec / 60) % 60
  let h := (totalSec / 3600) % 24
  let ymd := civilFromDays (totalSec / 86400)
  toString ymd.1 ++ "-" ++ pad2 ymd.2.1 ++ "-" ++ pad2 ymd.2.2 ++ "T" ++
    pad2 h ++ ":" ++ pad2 mi ++ ":" ++ pad2 s ++ "." ++ pad3 msPart ++ "Z"

/-! ## Data model -/

/-- A folder node as returned by `browser.bookmarks.get`. -/
structure FolderNode where
  id : String
  title : String
deriving DecidableEq, Repr

/-- A bookmark-tree node (`BookmarkTreeNode`): `url` is absent on folders,
`children` is the (possibly empty) list of child nodes. -/
inductive BookmarkNode where
  | mk (id : String) (title : String) (url : Option String) (parentId : String)
       (dateAdded : Nat) (children : List BookmarkNode)

/-- Node identifier. -/
def BookmarkNode.id : BookmarkNode → String
  | .mk i _ _ _ _ _ => i

/-- Node title. -/
def BookmarkNode.title : BookmarkNode → String
  | .mk _ t _ _ _ _ => t

/-- Node URL (`undefined` on folders, modelled as `none`). -/
def BookmarkNode.url : BookmarkNode → Option String
  | .mk _ _ u _ _ _ => u

/-- Parent folder identifier. -/
def BookmarkNode.parentId : BookmarkNode → String
  | .mk _ _ _ p _ _ => p

/-- Creation timestamp in milliseconds. -/
def BookmarkNode.dateAdded : BookmarkNode → Nat
  | .mk _ _ _ _ d _ => d

/-- Child nodes. -/
def BookmarkNode.children : BookmarkNode → List BookmarkNode
  | .mk _ _ _ _ _ c => c

/-- The JSON payload POSTed to the backend. -/
structure Payload where
  title : String
  url : String
  folder : Option String
  date : String
deriving DecidableEq, Repr

/-- One observable side effect of the extension. -/
inductive Effect where
  | log (msg : String)
  | getTree
  | storeGet (folderId : String)
  | fetchGet (endpoint : String)
  | fetchPost (endpoint : String) (payload : Payload)
  | remove (id : String)
  | alert (msg : String)
deriving DecidableEq, Repr

/-- Literal console/alert strings from the source. -/
def interceptedMsg : String := "Intercepted bookmark:"

/-- Console message of the silent-skip branch. -/
def skipMsg : String := "Skipping unsupported or default bookmark:"

/-- Console message after a successful submission. -/
def successMsg : String := "Bookmark processed successfully"

/-- Console message for a non-success HTTP response. -/
def failedMsg : String := "Failed to process bookmark"

/-- Console message of the catch block in `processBookmark`. -/
def errorSendingMsg : String := "Error sending bookmark:"

/-- The blocking alert text. -/
def alertMsg : String := "Failed to process bookmark. Please try again later."

/-- Console message when the backend health check fails. -/
def apiUnavailMsg : String := "API is not available. Bookmark processing will be retried later."

/-- Console message of the catch block in `processAllBookmarks`. -/
def sweepErrMsg : String := "Error processing all bookmarks:"

/-- The fixed submission endpoint. -/
def processEndpoint : String := "http://localhost:5000/process_bookmark"

/-- The fixed health-check endpoint. -/
def healthEndpoint : String := "http://localhost:5000/health"

/-- Exception raised by `url.startsWith` when `url` is `undefined`. -/
def typeErrorMsg : String := "TypeError: bookmark.url is undefined"

/-- Outcome of one `fetch` call: an HTTP response with a status code, or a
network-level exception. -/
inductive FetchResult where
  | resp (status : Nat)
  | netError
deriving DecidableEq, Repr

/-- `Response.ok`: status in the 200–299 range. -/
def respOk (status : Nat) : Bool :=
  200 ≤ status && status ≤ 299

/-- Platform behaviour visible to `processBookmark`: the bookmark store's
answer to `browser.bookmarks.get`, the network's answer to the submission
POST, and the outcome of `browser.bookmarks.remove`. -/
structure Env where
  store : String → List FolderNode
  fetchPost : Payload → FetchResult
  remove : String → Except String Unit

/-! ## Folder resolver -/

/-- `getFolderName(folderId)`: the sentinel un-filed root resolves to `null`
with no store query; otherwise the store is queried and the first returned
node's title is used when present and non-empty (JS truthiness of
`folderNode[0].title`).  `browser.bookmarks.get` is modelled as total,
returning the (possibly empty) list of matching nodes, which the source
guards with `folderNode && folderNode.length > 0`. -/
def getFolderName (store : String → List FolderNode) (folderId : String) :
    List Effect × Option String :=
  if folderId = "unfiled_____" then ([], none)
  else
    match store folderId with
    | [] => ([Effect.storeGet folderId], none)
    | node :: _ =>
        ([Effect.storeGet folderId], if node.title = "" then none else some node.title)

/-! ## Bookmark processor -/

/-- The payload `processBookmark` builds for a bookmark under environment
`env` (title, url, resolved folder name, ISO-8601 date). -/
def payloadOf (env : Env) (b : BookmarkNode) : Payload :=
  { title := b.title
  , url := b.url.getD ""
  , folder := (getFolderName env.store b.parentId).2
  , date := toISOString b.dateAdded }

/-- `processBookmark(bookmark)`.  The skip check runs before the `try`
block, so a missing `url` raises a `TypeError` that escapes the function;
everything from the folder lookup onwards is inside the `try`, whose
`catch` logs and alerts.  Note that a failing `browser.bookmarks.remove`
is caught by the same `catch` as fetch errors. -/
def processBookmark (env : Env) (b : BookmarkNode) :
    List Effect × Except String Unit :=
  match b.url with
  | none => ([Effect.log interceptedMsg], Except.error typeErrorMsg)
  | some u =>
    if isUnsupportedUrl u || isDefaultUrl u then
      ([Effect.log interceptedMsg, Effect.log skipMsg], Except.ok ())
    else
      let fEff := (getFolderName env.store b.parentId).1
      let p := payloadOf env b
      match env.fetchPost p with
      | .netError =>
          (Effect.log interceptedMsg :: fEff ++
            [Effect.fetchPost processEndpoint p, Effect.log errorSendingMsg,
             Effect.alert alertMsg], Except.ok ())
      | .resp s =>
        if respOk s then
          match env.remove b.id with
          | .ok _ =>
              (Effect.log interceptedMsg :: fEff ++
                [Effect.fetchPost processEndpoint p, Effect.log successMsg,
                 Effect.remove b.id], Except.ok ())
          | .error _ =>
              (Effect.log interceptedMsg :: fEff ++
                [Effect.fetchPost processEndpoint p, Effect.log successMsg,
                 Effect.remove b.id, Effect.log errorSendingMsg,
                 Effect.alert alertMsg], Except.ok ())
        else
          (Effect.log interceptedMsg :: fEff ++
            [Effect.fetchPost processEndpoint p, Effect.log failedMsg,
             Effect.alert alertMsg], Except.ok ())

/-! ## Sweep & retry controller -/

/-- The enqueue condition of `traverse`:
`bookmark.url && !isUnsupportedUrl(bookmark.url) && !isDefaultUrl(bookmark.url)`
(JS truthiness: a present, non-empty URL). -/
def qualifies (b : BookmarkNode) : Bool :=
  match b.url with
  | none => false
  | some u => !(u = "") && !isUnsupportedUrl u && !isDefaultUrl u

/-- The inner `traverse` of `processAllBookmarks`: depth-first over the tree,
pushing each qualifying node before descending into its children, siblings in
order. -/
def traverse : List BookmarkNode → List BookmarkNode
  | [] => []
  | BookmarkNode.mk i t u p d cs :: rest =>
      (if qualifies (BookmarkNode.mk i t u p d cs)
       then [BookmarkNode.mk i t u p d cs] else []) ++
      traverse cs ++ traverse rest

/-- Platform behaviour visible to a sweep: the bookmark store, the answer to
the `k`-th health check of the sweep, the network behaviour of the `k`-th
submission, and removal outcomes. -/
structure SweepEnv where
  store : String → List FolderNode
  avail : Nat → Bool
  fetchPost : Nat → Payload → FetchResult
  remove : String → Except String Unit

/-- The single-bookmark environment in force at step `k` of a sweep. -/
def SweepEnv.at (senv : SweepEnv) (k : Nat) : Env :=
  { store := senv.store, fetchPost := senv.fetchPost k, remove := senv.remove }

/-- The `for (let bookmark of queue)` loop of `processAllBookmarks`, starting
at step index `k`: before each item the backend availability is checked; on
failure the loop returns immediately.  The `Bool` records whether an exception
escaped `processBookmark` (aborting the loop into the sweep's `catch`). -/
def runQueue (senv : SweepEnv) (k : Nat) : List BookmarkNode → List Effect × Bool
  | [] => ([], false)
  | b :: rest =>
    if senv.avail k then
      match processBookmark (senv.at k) b with
      | (tr, Except.ok _) =>
          let r := runQueue senv (k + 1) rest
          (Effect.fetchGet healthEndpoint :: tr ++ r.1, r.2)
      | (tr, Except.error _) =>
          (Effect.fetchGet healthEndpoint :: tr, true)
    else
      ([Effect.fetchGet healthEndpoint, Effect.log apiUnavailMsg], false)

/-- `processAllBookmarks()` on a tree with root list `tree`: builds the queue
by `traverse`, processes it, and catches any exception at the whole-sweep
boundary, converting it to a log line.  No exception escapes this function. -/
def processAllBookmarks (senv : SweepEnv) (tree : List BookmarkNode) : List Effect :=
  let r := runQueue senv 0 (traverse tree)
  if r.2 then Effect.getTree :: r.1 ++ [Effect.log sweepErrMsg]
  else Effect.getTree :: r.1

/-- The `browser.bookmarks.onCreated` listener: one availability check, then
either `processBookmark` or a log line.  `avail` is the health check's answer.
The `Except` result is an exception escaping the listener. -/
def onCreatedHandler (env : Env) (avail : Bool) (b : BookmarkNode) :
    List Effect × Except String Unit :=
  if avail then
    let r := processBookmark env b
    (Effect.fetchGet healthEndpoint :: r.1, r.2)
  else
    ([Effect.fetchGet healthEndpoint, Effect.log apiUnavailMsg], Except.ok ())

/-! ## Trace observations -/

/-- Number of backend submission attempts in a trace. -/
def countSubmissions (tr : List Effect) : Nat :=
  tr.countP fun e => match e with
    | Effect.fetchPost _ _ => true
    | _ => false

/-- Number of bookmark-store removal attempts in a trace. -/
def countRemovals (tr : List Effect) : Nat :=
  tr.countP fun e => match e with
    | Effect.remove _ => true
    | _ => false

/-- Whether a trace contains a user alert. -/
def hasAlert (tr : List Effect) : Bool :=
  tr.any fun e => match e with
    | Effect.alert _ => true
    | _ => false

/-- Number of user alerts in a trace. -/
def countAlerts (tr : List Effect) : Nat :=
  tr.countP fun e => match e with
    | Effect.alert _ => true
    | _ => false

/-! ## Concrete test fixtures -/

/-- A store holding a single folder `f9` titled `Work`. -/
def workStore : String → List FolderNode :=
  fun fid => if fid = "f9" then [⟨"f9", "Work"⟩] else []

/-- The environment of the spec's worked example: folder `f1` is titled
`Reading`, the backend answers 200, removal succeeds. -/
def env7 : Env :=
  { store := fun fid => if fid = "f1" then [⟨"f1", "Reading"⟩] else []
  , fetchPost := fun _ => FetchResult.resp 200
  , remove := fun _ => Except.ok () }

/-- The bookmark of the spec's worked example. -/
def bk7 : BookmarkNode :=
  BookmarkNode.mk "b1" "Example" (some "https://example.com") "f1" 1700000000000 []

/-- An environment whose backend rejects every submission with a 500. -/
def env500 : Env :=
  { store := fun _ => []
  , fetchPost := fun _ => FetchResult.resp 500
  , remove := fun _ => Except.ok () }

/-- An environment whose backend accepts (200) but whose bookmark-store
removal always fails. -/
def envRemoveFail : Env :=
  { store := fun _ => []
  , fetchPost := fun _ => FetchResult.resp 200
  , remove := fun _ => Except.error "removal failed" }

/-- An ordinary un-filed bookmark with a plain https URL. -/
def bkPlain : BookmarkNode :=
  BookmarkNode.mk "bk" "Example" (some "https://example.com") "unfiled_____" 0 []

/-- A folder node: `url` is absent, as delivered by a folder-creation event. -/
def bkFolder : BookmarkNode :=
  BookmarkNode.mk "fold" "New Folder" none "toolbar_____" 0 []

/-- A bookmark with an unsupported-scheme URL. -/
def bkAbout : BookmarkNode :=
  BookmarkNode.mk "ba" "About" (some "about:blank") "unfiled_____" 0 []

/-- First qualifying bookmark of the three-bookmark tree. -/
def qb1 : BookmarkNode :=
  BookmarkNode.mk "b1" "T1" (some "https://e1.com/") "unfiled_____" 0 []

/-- Second qualifying bookmark of the three-bookmark tree. -/
def qb2 : BookmarkNode :=
  BookmarkNode.mk "b2" "T2" (some "https://e2.com/") "unfiled_____" 0 []

/-- Third qualifying bookmark of the three-bookmark tree. -/
def qb3 : BookmarkNode :=
  BookmarkNode.mk "b3" "T3" (some "https://e3.com/") "unfiled_____" 0 []

/-- A bookmark tree whose root folder holds exactly three qualifying
bookmarks. -/
def tree3 : List BookmarkNode :=
  [BookmarkNode.mk "root" "" none "root________" 0 [qb1, qb2, qb3]]

/-- Sweep behaviour: the backend is available for the first health check
only, accepts submissions with 200, removal succeeds. -/
def senv2 : SweepEnv :=
  { store := fun _ => []
  , avail := fun k => k == 0
  , fetchPost := fun _ _ => FetchResult.resp 200
  , remove := fun _ => Except.ok () }

/-- Sweep behaviour: the backend is always available but rejects every
submission with a 500. -/
def senv500 : SweepEnv :=
  { store := fun _ => []
  , avail := fun _ => true
  , fetchPost := fun _ _ => FetchResult.resp 500
  , remove := fun _ => Except.ok () }

/-! ## Helper lemmas -/

/-- The folder lookup performs either no effect (sentinel) or exactly one
store query. -/
theorem getFolderName_effects (store : String → List FolderNode) (fid : String) :
    (getFolderName store fid).1 = [] ∨
      (getFolderName store fid).1 = [Effect.storeGet fid] := by
  by_cases h : fid = "unfiled_____"
  · simp [getFolderName, h]
  · cases hs : store fid <;> simp [getFolderName, h, hs]

/-- Evaluation of the traversal on the concrete three-bookmark tree. -/
theorem traverse_tree3 : traverse tree3 = [qb1, qb2, qb3] := by
  simp [traverse.eq_def, tree3, qb1, qb2, qb3, qualifies, BookmarkNode.url,
        isUnsupportedUrl, isDefaultUrl, UNSUPPORTED_SCHEMES, DEFAULT_URLS,
        jsStartsWith, List.isPrefixOf]

/-- Every node the traversal enqueues satisfies the enqueue condition. -/
theorem mem_traverse_qualifies (ns : List BookmarkNode) (b : BookmarkNode)
    (hb : b ∈ traverse ns) : qualifies b = true := by
  match ns with
  | [] => simp [traverse.eq_def] at hb
  | BookmarkNode.mk i t u p d cs :: rest =>
    rw [traverse.eq_def] at hb
    rcases List.mem_append.mp hb with h | h
    · rcases List.mem_append.mp h with h1 | h1
      · by_cases hq : qualifies (BookmarkNode.mk i t u p d cs) = true
        · simp [hq] at h1
          subst h1
          exact hq
        · simp [hq] at h1
      · exact mem_traverse_qualifies cs b h1
    · exact mem_traverse_qualifies rest b h

/-- A bookmark with a present URL never lets an exception escape
`processBookmark` (the whole body past the skip check sits in the `try`). -/
theorem processBookmark_ok (env : Env) (b : BookmarkNode) (u : String)
    (hu : b.url = some u) : (processBookmark env b).2 = Except.ok () := by
  by_cases hs : (isUnsupportedUrl u || isDefaultUrl u) = true
  · simp [processBookmark, hu, hs]
  · cases hf : env.fetchPost (payloadOf env b) with
    | netError => simp [processBookmark, hu, hs, hf]
    | resp s =>
      by_cases hok : respOk s = true
      · cases hr : env.remove b.id with
        | ok v => simp [processBookmark, hu, hs, hf, hok, hr]
        | error e => simp [processBookmark, hu, hs, hf, hok, hr]
      · simp [processBookmark, hu, hs, hf, hok]

/-! ## Claim theorems -/

/-- C9: for every URL string, `isUnsupportedUrl` returns true if and only if
the string starts with one of the four fixed scheme prefixes `about:`,
`data:`, `chrome:`, `file:`; for every other string it returns false.  The
function is a pure `String → Bool` map with no effects by construction. -/
theorem c9_isUnsupportedUrl_iff (url : String) :
    isUnsupportedUrl url = true ↔
      (jsStartsWith url "about:" = true ∨ jsStartsWith url "data:" = true ∨
       jsStartsWith url "chrome:" = true ∨ jsStartsWith url "file:" = true) := by
  simp [isUnsupportedUrl, UNSUPPORTED_SCHEMES]

/-- C3: `getFolderName` returns null immediately, with no store query, on the
un-filed sentinel; otherwise it queries the store once and returns the fetched
node's title exactly when that title is present and non-empty, null otherwise;
it is total (never throws), in particular when the store has no node for the
id. -/
theorem c3_getFolderName_spec (store : String → List FolderNode)
    (folderId : String) :
    getFolderName store "unfiled_____" = ([], none) ∧
    (folderId ≠ "unfiled_____" → store folderId = [] →
      getFolderName store folderId = ([Effect.storeGet folderId], none)) ∧
    (∀ node rest, folderId ≠ "unfiled_____" → store folderId = node :: rest →
      node.title ≠ "" →
      getFolderName store folderId = ([Effect.storeGet folderId], some node.title)) ∧
    (∀ node rest, folderId ≠ "unfiled_____" → store folderId = node :: rest →
      node.title = "" →
      getFolderName store folderId = ([Effect.storeGet folderId], none)) := by
  refine ⟨by simp [getFolderName], ?_, ?_, ?_⟩
  · intro h1 h2
    simp [getFolderName, h1, h2]
  · intro node rest h1 h2 h3
    simp [getFolderName, h1, h2, h3]
  · intro node rest h1 h2 h3
    simp [getFolderName, h1, h2, h3]

/-- Witness for C3 on a concrete store holding folder `f9` titled `Work`. -/
theorem c3_getFolderName_spec_witness :
    getFolderName workStore "unfiled_____" = ([], none) ∧
    getFolderName workStore "missing" = ([Effect.storeGet "missing"], none) ∧
    getFolderName workStore "f9" = ([Effect.storeGet "f9"], some "Work") :=
  ⟨(c3_getFolderName_spec workStore "f9").1,
   (c3_getFolderName_spec workStore "missing").2.1 (by decide)
     (by simp [workStore]),
   (c3_getFolderName_spec workStore "f9").2.2.1 ⟨"f9", "Work"⟩ [] (by decide)
     (by simp [workStore]) (by decide)⟩

/-- C8: a bookmark whose URL is unsupported or a default URL is skipped
silently by `processBookmark`: the trace is two log lines, with no network
call and no removal. -/
theorem c8_skip_silent (env : Env) (b : BookmarkNode) (u : String)
    (hu : b.url = some u)
    (hskip : isUnsupportedUrl u = true ∨ isDefaultUrl u = true) :
    (processBookmark env b).1 = [Effect.log interceptedMsg, Effect.log skipMsg] ∧
    countSubmissions (processBookmark env b).1 = 0 ∧
    countRemovals (processBookmark env b).1 = 0 := by
  have hb : (isUnsupportedUrl u || isDefaultUrl u) = true := by
    rcases hskip with h | h <;> simp [h]
  simp [processBookmark, hu, hb, countSubmissions, countRemovals,
        List.countP_cons, List.countP_nil]

/-- Witness for C8 on the concrete bookmark with URL `about:blank`. -/
theorem c8_skip_silent_witness :
    (processBookmark env500 bkAbout).1 =
      [Effect.log interceptedMsg, Effect.log skipMsg] ∧
    countSubmissions (processBookmark env500 bkAbout).1 = 0 ∧
    countRemovals (processBookmark env500 bkAbout).1 = 0 :=
  c8_skip_silent env500 bkAbout "about:blank" rfl (Or.inl (by decide))

/-- C7: the spec's worked example.  For the bookmark
`{title: Example, url: https://example.com, parentId: f1, dateAdded:
1700000000000}` whose parent resolves to folder `Reading` and a 200 response,
the exact trace is: the intercept log, one store query for `f1`, exactly one
POST whose payload is `{title: Example, url: https://example.com, folder:
Reading, date: 2023-11-14T22:13:20.000Z}`, the success log, and the removal
of the bookmark — and no exception escapes. -/
theorem c7_worked_example :
    processBookmark env7 bk7 =
      ([Effect.log interceptedMsg, Effect.storeGet "f1",
        Effect.fetchPost processEndpoint
          { title := "Example", url := "https://example.com"
          , folder := some "Reading", date := "2023-11-14T22:13:20.000Z" },
        Effect.log successMsg, Effect.remove "b1"], Except.ok ()) := by
  rfl

/-- C1: for every platform behaviour and every bookmark, a store removal
appears in `processBookmark`'s trace only when the backend acknowledged the
submission with an HTTP success status, and only after the submission in
trace order; when the submission fails (non-success status or network
exception) no removal occurs, leaving the bookmark in the store. -/
theorem c1_removal_only_after_ack (env : Env) (b : BookmarkNode) :
    (∀ bid, Effect.remove bid ∈ (processBookmark env b).1 →
        ∃ s, env.fetchPost (payloadOf env b) = FetchResult.resp s ∧
          respOk s = true ∧
          ∃ l1 l2, (processBookmark env b).1 =
              l1 ++ Effect.fetchPost processEndpoint (payloadOf env b) :: l2 ∧
            Effect.remove bid ∈ l2) ∧
    ((env.fetchPost (payloadOf env b) = FetchResult.netError ∨
      ∃ s, env.fetchPost (payloadOf env b) = FetchResult.resp s ∧
        respOk s = false) →
      countRemovals (processBookmark env b).1 = 0) := by
  constructor
  · intro bid hmem
    cases hu : b.url with
    | none => simp [processBookmark, hu] at hmem
    | some u =>
      by_cases hsk : (isUnsupportedUrl u || isDefaultUrl u) = true
      · simp [processBookmark, hu, hsk] at hmem
      · cases hfp : env.fetchPost (payloadOf env b) with
        | netError =>
          rcases getFolderName_effects env.store b.parentId with hf | hf <;>
            simp [processBookmark, hu, hsk, hfp, hf] at hmem
        | resp s =>
          by_cases hok : respOk s = true
          · cases hr : env.remove b.id with
            | ok v =>
              have hbid : bid = b.id := by
                rcases getFolderName_effects env.store b.parentId with hf | hf <;>
                  (simp [processBookmark, hu, hsk, hfp, hok, hr, hf] at hmem;
                   exact hmem)
              subst hbid
              exact ⟨s, rfl, hok,
                Effect.log interceptedMsg :: (getFolderName env.store b.parentId).1,
                [Effect.log successMsg, Effect.remove b.id],
                by simp [processBookmark, hu, hsk, hfp, hok, hr], by simp⟩
            | error e =>
              have hbid : bid = b.id := by
                rcases getFolderName_effects env.store b.parentId with hf | hf <;>
                  (simp [processBookmark, hu, hsk, hfp, hok, hr, hf] at hmem;
                   exact hmem)
              subst hbid
              exact ⟨s, rfl, hok,
                Effect.log interceptedMsg :: (getFolderName env.store b.parentId).1,
                [Effect.log successMsg, Effect.remove b.id,
                 Effect.log errorSendingMsg, Effect.alert alertMsg],
                by simp [processBookmark, hu, hsk, hfp, hok, hr], by simp⟩
          · rcases getFolderName_effects env.store b.parentId with hf | hf <;>
              simp [processBookmark, hu, hsk, hfp, hok, hf] at hmem
  · intro hfail
    cases hu : b.url with
    | none => simp [processBookmark, hu, countRemovals]
    | some u =>
      by_cases hsk : (isUnsupportedUrl u || isDefaultUrl u) = true
      · simp [processBookmark, hu, hsk, countRemovals, List.countP_cons,
              List.countP_nil]
      · rcases hfail with hne | ⟨s, hs, hok⟩
        · rcases getFolderName_effects env.store b.parentId with hf | hf <;>
            simp [processBookmark, hu, hsk, hne, hf, countRemovals,
                  List.countP_cons, List.countP_nil]
        · rcases getFolderName_effects env.store b.parentId with hf | hf <;>
            simp [processBookmark, hu, hsk, hs, hok, hf, countRemovals,
                  List.countP_cons, List.countP_nil]

/-- Witness for C1: with a 200-responding backend the removal is present and
preceded by the acknowledged submission; with a 500-responding backend no
removal occurs. -/
theorem c1_removal_only_after_ack_witness :
    (∃ s, env7.fetchPost (payloadOf env7 bk7) = FetchResult.resp s ∧
       respOk s = true ∧
       ∃ l1 l2, (processBookmark env7 bk7).1 =
           l1 ++ Effect.fetchPost processEndpoint (payloadOf env7 bk7) :: l2 ∧
         Effect.remove "b1" ∈ l2) ∧
    countRemovals (processBookmark env500 bkPlain).1 = 0 :=
  ⟨(c1_removal_only_after_ack env7 bk7).1 "b1" (by decide),
   (c1_removal_only_after_ack env500 bkPlain).2 (Or.inr ⟨500, rfl, rfl⟩)⟩

/-- C2: backend availability is re-checked before each queued item and a
failed check abandons the entire remainder immediately; concretely, on the
three-bookmark tree with the backend available only for the first health
check, the sweep performs exactly one submission and one removal (of the
first bookmark) and never touches the other two. -/
theorem c2_sweep_recheck_abort :
    (∀ (senv : SweepEnv) (k : Nat) (b : BookmarkNode) (rest : List BookmarkNode),
        senv.avail k = false →
        runQueue senv k (b :: rest) =
          ([Effect.fetchGet healthEndpoint, Effect.log apiUnavailMsg], false)) ∧
    processAllBookmarks senv2 tree3 =
      [Effect.getTree, Effect.fetchGet healthEndpoint,
       Effect.log interceptedMsg,
       Effect.fetchPost processEndpoint
         { title := "T1", url := "https://e1.com/", folder := none
         , date := "1970-01-01T00:00:00.000Z" },
       Effect.log successMsg, Effect.remove "b1",
       Effect.fetchGet healthEndpoint, Effect.log apiUnavailMsg] ∧
    countSubmissions (processAllBookmarks senv2 tree3) = 1 ∧
    countRemovals (processAllBookmarks senv2 tree3) = 1 := by
  have htr : processAllBookmarks senv2 tree3 =
      [Effect.getTree, Effect.fetchGet healthEndpoint,
       Effect.log interceptedMsg,
       Effect.fetchPost processEndpoint
         { title := "T1", url := "https://e1.com/", folder := none
         , date := "1970-01-01T00:00:00.000Z" },
       Effect.log successMsg, Effect.remove "b1",
       Effect.fetchGet healthEndpoint, Effect.log apiUnavailMsg] := by
    unfold processAllBookmarks
    rw [traverse_tree3]
    rfl
  refine ⟨?_, htr, by rw [htr]; rfl, by rw [htr]; rfl⟩
  intro senv k b rest h
  simp [runQueue, h]

/-- Witness for C2: the abort clause applied at the concrete sweep step 1,
where the backend has become unavailable. -/
theorem c2_sweep_recheck_abort_witness :
    runQueue senv2 1 [qb2, qb3] =
      ([Effect.fetchGet healthEndpoint, Effect.log apiUnavailMsg], false) :=
  c2_sweep_recheck_abort.1 senv2 1 qb2 [qb3] rfl

/-- C4 counterexample: a bulk sweep over the three-bookmark tree with the
backend rejecting every submission (500) raises the blocking alert three
times — once per failing item — so a sweep submission failure does trigger a
per-item user alert, contrary to the claim. -/
theorem c4_sweep_alert_counterexample :
    countAlerts (processAllBookmarks senv500 tree3) = 3 ∧
    hasAlert (processAllBookmarks senv500 tree3) = true := by
  refine ⟨?_, ?_⟩ <;> (unfold processAllBookmarks; rw [traverse_tree3]; rfl)

/-- C4 amended: the blocking alert on submission failure is raised inside
`processBookmark` itself, so it occurs on both paths — the direct
single-bookmark event path and, per item, the bulk sweep. -/
theorem c4_alert_on_failure_both_paths (env : Env) (b : BookmarkNode)
    (u : String)
    (hu : b.url = some u)
    (hq : (isUnsupportedUrl u || isDefaultUrl u) = false)
    (hfail : env.fetchPost (payloadOf env b) = FetchResult.netError ∨
             ∃ s, env.fetchPost (payloadOf env b) = FetchResult.resp s ∧
               respOk s = false) :
    Effect.alert alertMsg ∈ (processBookmark env b).1 := by
  rcases hfail with hne | ⟨s, hs, hok⟩
  · simp [processBookmark, hu, hq, hne]
  · simp [processBookmark, hu, hq, hs, hok]

/-- Witness for the amended C4 on a concrete 500-rejecting backend. -/
theorem c4_alert_on_failure_both_paths_witness :
    Effect.alert alertMsg ∈ (processBookmark env500 bkPlain).1 :=
  c4_alert_on_failure_both_paths env500 bkPlain "https://example.com" rfl
    (by decide) (Or.inr ⟨500, rfl, rfl⟩)

/-- C5 counterexample: the backend acknowledges with 200 but the removal
fails; the failure lands in the same catch block as submission errors, which
logs AND raises the blocking alert — refuting "the failure is logged only,
no user alert is raised". -/
theorem c5_removal_failure_alert_counterexample :
    processBookmark envRemoveFail bkPlain =
      ([Effect.log interceptedMsg,
        Effect.fetchPost processEndpoint
          { title := "Example", url := "https://example.com", folder := none
          , date := "1970-01-01T00:00:00.000Z" },
        Effect.log successMsg, Effect.remove "bk", Effect.log errorSendingMsg,
        Effect.alert alertMsg], Except.ok ()) ∧
    hasAlert (processBookmark envRemoveFail bkPlain).1 = true := by
  exact ⟨rfl, rfl⟩

/-- C5 amended: when the backend acknowledged the submission with success and
the subsequent removal fails, the failure is caught by `processBookmark`'s
catch block, which logs it AND raises the user alert; the removal is
attempted exactly once (not retried), the submission is not repeated, and the
bookmark is considered processed (no exception escapes). -/
theorem c5_removal_failure_amended (env : Env) (b : BookmarkNode) (u : String)
    (s : Nat) (e : String)
    (hu : b.url = some u)
    (hq : (isUnsupportedUrl u || isDefaultUrl u) = false)
    (hpost : env.fetchPost (payloadOf env b) = FetchResult.resp s)
    (hok : respOk s = true)
    (hrem : env.remove b.id = Except.error e) :
    Effect.log errorSendingMsg ∈ (processBookmark env b).1 ∧
    Effect.alert alertMsg ∈ (processBookmark env b).1 ∧
    countRemovals (processBookmark env b).1 = 1 ∧
    countSubmissions (processBookmark env b).1 = 1 ∧
    (processBookmark env b).2 = Except.ok () := by
  rcases getFolderName_effects env.store b.parentId with hf | hf <;>
    simp [processBookmark, hu, hq, hpost, hok, hrem, hf, countRemovals,
          countSubmissions, List.countP_cons, List.countP_nil]

/-- Witness for the amended C5 on a concrete acknowledged-then-removal-fails
run. -/
theorem c5_removal_failure_amended_witness :
    Effect.log errorSendingMsg ∈ (processBookmark envRemoveFail bkPlain).1 ∧
    Effect.alert alertMsg ∈ (processBookmark envRemoveFail bkPlain).1 ∧
    countRemovals (processBookmark envRemoveFail bkPlain).1 = 1 ∧
    countSubmissions (processBookmark envRemoveFail bkPlain).1 = 1 ∧
    (processBookmark envRemoveFail bkPlain).2 = Except.ok () :=
  c5_removal_failure_amended envRemoveFail bkPlain "https://example.com" 200
    "removal failed" rfl (by decide) rfl rfl rfl

/-- Helper: if every queued node carries a URL, the sweep loop never lets an
exception escape a `processBookmark` call (the error flag stays false). -/
theorem runQueue_no_error (senv : SweepEnv) (q : List BookmarkNode)
    (hq : ∀ b ∈ q, ∃ u, b.url = some u) :
    ∀ k, (runQueue senv k q).2 = false := by
  induction q with
  | nil => intro k; rfl
  | cons b rest ih =>
    intro k
    obtain ⟨u, hu⟩ := hq b (List.mem_cons_self b rest)
    by_cases ha : senv.avail k = true
    · have hok := processBookmark_ok (senv.at k) b u hu
      rcases hpb : processBookmark (senv.at k) b with ⟨tr, r⟩
      rw [hpb] at hok
      simp only at hok
      subst hok
      simp only [runQueue, ha, if_true, hpb]
      exact ih (fun c hc => hq c (List.mem_cons_of_mem _ hc)) (k + 1)
    · have ha' : senv.avail k = false := by
        cases h : senv.avail k
        · rfl
        · exact absurd h ha
      simp [runQueue, ha']

/-- Helper: every node the traversal enqueues carries a URL. -/
theorem mem_traverse_has_url (ns : List BookmarkNode) (b : BookmarkNode)
    (hb : b ∈ traverse ns) : ∃ u, b.url = some u := by
  have hq := mem_traverse_qualifies ns b hb
  cases hu : b.url with
  | none => simp [qualifies, hu] at hq
  | some u => exact ⟨u, rfl⟩

/-- C6 counterexample: a folder-creation event delivers a node with no URL to
the `onCreated` listener; the URL-classification step runs before
`processBookmark`'s try block, so the resulting TypeError escapes the
handler instead of being converted to logging. -/
theorem c6_exception_escape_counterexample :
    (onCreatedHandler env7 true bkFolder).2 = Except.error typeErrorMsg := rfl

/-- C6 amended: failures inside the try-protected regions are caught at each
operation's boundary: whenever the created node carries a URL, no exception
escapes the `onCreated` handler; and no exception ever escapes a sweep — its
queue only holds nodes with URLs, so the per-sweep catch never fires and the
sweep trace is exactly the tree fetch followed by the loop's effects.  Only a
created node lacking a URL (a folder) escapes, via the classification step
that precedes the try block. -/
theorem c6_boundary_catch_amended :
    (∀ (env : Env) (avail : Bool) (b : BookmarkNode) (u : String),
        b.url = some u → (onCreatedHandler env avail b).2 = Except.ok ()) ∧
    (∀ (senv : SweepEnv) (tree : List BookmarkNode),
        (runQueue senv 0 (traverse tree)).2 = false ∧
        processAllBookmarks senv tree =
          Effect.getTree :: (runQueue senv 0 (traverse tree)).1) := by
  constructor
  · intro env avail b u hu
    cases avail
    · rfl
    · simpa [onCreatedHandler] using processBookmark_ok env b u hu
  · intro senv tree
    have hflag : (runQueue senv 0 (traverse tree)).2 = false :=
      runQueue_no_error senv (traverse tree) (mem_traverse_has_url tree) 0
    exact ⟨hflag, by simp [processAllBookmarks, hflag]⟩

/-- Witness for the amended C6 at a concrete event and a concrete sweep. -/
theorem c6_boundary_catch_amended_witness :
    (onCreatedHandler env500 true bkPlain).2 = Except.ok () ∧
    (runQueue senv2 0 (traverse tree3)).2 = false :=
  ⟨c6_boundary_catch_amended.1 env500 true bkPlain "https://example.com" rfl,
   (c6_boundary_catch_amended.2 senv2 tree3).1⟩

/-- C10: every node the sweep traversal enqueues qualifies, so the skip
branch of `processBookmark` is unreachable for it: for every platform
behaviour, processing such a node logs no skip line and performs exactly one
submission attempt. -/
theorem c10_queue_never_skips (env : Env) (ns : List BookmarkNode)
    (b : BookmarkNode) (hb : b ∈ traverse ns) :
    Effect.log skipMsg ∉ (processBookmark env b).1 ∧
    countSubmissions (processBookmark env b).1 = 1 := by
  have hq := mem_traverse_qualifies ns b hb
  cases hu : b.url with
  | none => simp [qualifies, hu] at hq
  | some u =>
    have hsk : (isUnsupportedUrl u || isDefaultUrl u) = false := by
      cases h1 : isUnsupportedUrl u with
      | true => simp [qualifies, hu, h1] at hq
      | false =>
        cases h2 : isDefaultUrl u with
        | true => simp [qualifies, hu, h1, h2] at hq
        | false => simp [h1, h2]
    cases hfp : env.fetchPost (payloadOf env b) with
    | netError =>
      rcases getFolderName_effects env.store b.parentId with hf | hf <;>
        simp [processBookmark, hu, hsk, hfp, hf, countSubmissions,
              List.countP_cons, List.countP_nil, skipMsg, interceptedMsg,
              errorSendingMsg]
    | resp s =>
      by_cases hok : respOk s = true
      · cases hr : env.remove b.id with
        | ok v =>
          rcases getFolderName_effects env.store b.parentId with hf | hf <;>
            simp [processBookmark, hu, hsk, hfp, hok, hr, hf, countSubmissions,
                  List.countP_cons, List.countP_nil, skipMsg, interceptedMsg,
                  successMsg]
        | error e =>
          rcases getFolderName_effects env.store b.parentId with hf | hf <;>
            simp [processBookmark, hu, hsk, hfp, hok, hr, hf, countSubmissions,
                  List.countP_cons, List.countP_nil, skipMsg, interceptedMsg,
                  successMsg, errorSendingMsg]
      · rcases getFolderName_effects env.store b.parentId with hf | hf <;>
          simp [processBookmark, hu, hsk, hfp, hok, hf, countSubmissions,
                List.countP_cons, List.countP_nil, skipMsg, interceptedMsg,
                failedMsg]

/-- Witness for C10 on the first bookmark of the concrete three-bookmark
tree. -/
theorem c10_queue_never_skips_witness :
    Effect.log skipMsg ∉ (processBookmark env500 qb1).1 ∧
    countSubmissions (processBookmark env500 qb1).1 = 1 :=
  c10_queue_never_skips env500 tree3 qb1
    (by rw [traverse_tree3]; exact List.mem_cons_self _ _)

end BookmarkExt
